import Mathlib

/-!
Shallow embedding of `pwnlib/ui.py` (interactive terminal prompt and pager
primitives) and verification of its specification claims.

Terminal I/O is modelled by finite streams: a list of input lines for
`raw_input`/`getpass` and a list of key tokens for `term.key.get`.  Each model
returns an `Outcome` together with the number of terminal interactions
(prompts shown, lines read, keys read) it performed; a computation that runs
out of scripted input is `starve` (the real code would block forever), and an
uncaught Python exception is `err`.
-/

namespace PwnlibUi

/-- Result of driving one of the ui functions against finite input. -/
inductive Outcome (α : Type) where
  | ret (a : α)
  | err
  | starve
deriving DecidableEq, Repr

/-- Python values that can be passed for the loosely typed optional
parameters (`required`, `default`, `n`). -/
inductive PyVal where
  | none
  | bool (b : Bool)
  | int (n : Int)
  | str (s : String)
deriving DecidableEq, Repr

/-- Models `isinstance(x, (bool, types.NoneType))`. -/
def isBoolOrNone : PyVal → Bool
  | .none => true
  | .bool _ => true
  | _ => false

/-- Models `isinstance(x, (int, long, types.NoneType))`; a Python `bool` is a
subclass of `int`, so it passes this check. -/
def isIntOrNone : PyVal → Bool
  | .none => true
  | .int _ => true
  | .bool _ => true
  | _ => false

/-- Characters removed by Python `str.strip()`. -/
def isSpaceChar (c : Char) : Bool :=
  c == ' ' || c == '\t' || c == '\n' || c == '\r' || c == '\x0b' || c == '\x0c'

/-- Python `str.strip()` on the character-list model of a string. -/
def stripChars (l : List Char) : List Char :=
  ((l.dropWhile isSpaceChar).reverse.dropWhile isSpaceChar).reverse

/-- Python `str.strip()`: remove surrounding whitespace. -/
def strip (s : String) : String := ⟨stripChars s.data⟩

/-- Python truthiness of the optional string `default`: `None` and the empty
string are both falsy. -/
def truthy : Option String → Bool
  | some s => s != ""
  | Option.none => false

/-! ### ask / askpass (ui.py lines 18-120) -/

/-- The required-retry loop shared by `ask` and `askpass` (lines 66-78 and
112-119): while the response is empty, read and strip the next input line.
Returns the outcome and the number of `raw_input`/`getpass` calls made by
the loop itself. -/
def askLoop (resp : String) : List String → Outcome String × Nat
  | [] => if resp == "" then (.starve, 0) else (.ret resp, 0)
  | i :: ins =>
    if resp == "" then
      let r := askLoop (strip i) ins
      (r.1, r.2 + 1)
    else (.ret resp, 0)

/-- Models `ask(prompt, default, required)` (lines 18-79).  The prompt text and
the cosmetic escalation of the question mark do not influence the result and
are not tracked; every `raw_input` call counts as one terminal interaction. -/
def askModel (default : Option String) (required : PyVal) (inputs : List String) :
    Outcome String × Nat :=
  if isBoolOrNone required = false then (.err, 0)
  else
    match inputs with
    | [] => (.starve, 0)
    | i :: ins =>
      let resp := strip i
      let r :=
        if truthy default && (resp == "") then (Outcome.ret (default.getD ""), 0)
        else if required == PyVal.bool true then askLoop resp ins
        else (Outcome.ret resp, 0)
      (r.1, r.2 + 1)

/-- Models `askpass(prompt, default, required)` (lines 81-120); the control
flow is identical to `ask`, with `getpass` in place of `raw_input`. -/
def askpassModel (default : Option String) (required : PyVal) (inputs : List String) :
    Outcome String × Nat :=
  if isBoolOrNone required = false then (.err, 0)
  else
    match inputs with
    | [] => (.starve, 0)
    | i :: ins =>
      let resp := strip i
      let r :=
        if truthy default && (resp == "") then (Outcome.ret (default.getD ""), 0)
        else if required == PyVal.bool true then askLoop resp ins
        else (Outcome.ret resp, 0)
      (r.1, r.2 + 1)

/-! ### yesno (ui.py lines 122-173) -/

/-- Key tokens recognised by the interactive `yesno` loop. -/
inductive YKey where
  | keyY | keyYUpper | left | keyN | keyNUpper | right | enter | other
deriving DecidableEq, Repr

/-- The interactive `yesno` toggle loop (lines 147-159): `y`/`Y`/`<left>` select
yes, `n`/`N`/`<right>` select no, `<enter>` commits only when a selection is
set.  Each key read counts as one interaction. -/
def yesnoKeyLoop : Option Bool → List YKey → Outcome Bool × Nat
  | _, [] => (.starve, 0)
  | cur, k :: ks =>
    match k with
    | .enter =>
      match cur with
      | some b => (Outcome.ret b, 1)
      | Option.none =>
        let r := yesnoKeyLoop Option.none ks
        (r.1, 1 + r.2)
    | .keyY | .keyYUpper | .left =>
      let r := yesnoKeyLoop (some true) ks
      (r.1, 1 + r.2)
    | .keyN | .keyNUpper | .right =>
      let r := yesnoKeyLoop (some false) ks
      (r.1, 1 + r.2)
    | .other =>
      let r := yesnoKeyLoop cur ks
      (r.1, 1 + r.2)

/-- Python `str.lower()` on the character-list model of a string. -/
def pyLower (s : String) : String := ⟨s.data.map Char.toLower⟩

/-- The non-interactive `yesno` loop (lines 165-173): empty input returns the
default when set, `y`/`yes`/`n`/`no` are matched case-insensitively, anything
else prints an error line and re-prompts. -/
def yesnoNILoop (default : Option Bool) : List String → Outcome Bool × Nat
  | [] => (.starve, 0)
  | i :: ins =>
    let opt := pyLower i
    if opt == "" && default.isSome then (Outcome.ret (default.getD true), 1)
    else if opt == "y" || opt == "yes" then (Outcome.ret true, 1)
    else if opt == "n" || opt == "no" then (Outcome.ret false, 1)
    else
      let r := yesnoNILoop default ins
      (r.1, 2 + r.2)

/-- Models `yesno(prompt, default)` (lines 122-173).  The interactive branch
first renders the `[Yes/no]` header (five `term.output` calls). -/
def yesnoModel (termMode : Bool) (default : PyVal)
    (keys : List YKey) (inputs : List String) : Outcome Bool × Nat :=
  if isBoolOrNone default = false then (.err, 0)
  else
    let d : Option Bool :=
      match default with
      | .bool b => some b
      | _ => Option.none
    if termMode then
      let r := yesnoKeyLoop d keys
      (r.1, 5 + r.2)
    else yesnoNILoop d inputs

/-! ### options (ui.py lines 175-259) -/

/-- Key tokens recognised by the interactive `options` loop. -/
inductive OptKey where
  | up | down | ctrlUp | ctrlDown | enter | right | digit (c : Char) | other
deriving DecidableEq, Repr

/-- State of the interactive `options` loop: the current selection `cur`
(Python `None` or an int) and the numeric-entry buffer `ds`. -/
structure OptState where
  cur : Option Int
  ds : String
deriving DecidableEq, Repr

/-- Value of a string of decimal digits, as computed by Python `int` on the
digit buffer. -/
def strToNat (s : String) : Nat :=
  s.data.foldl (fun a c => a * 10 + (c.toNat - 48)) 0

/-- The digit branch of the interactive `options` loop (lines 227-236) as a
pure automaton on the buffer: `n = int(ds + d)` is appended iff
`0 < n <= len(opts)`, otherwise the buffer resets to the single digit `d`
unless `d = '0'`, in which case it is left unchanged.  The new selection is
`int(ds) - 1`; the result is `none` when the code raises `ValueError` on
`int('')` (a rejected `'0'` with an empty buffer). -/
def digitStep (numOpts : Nat) (ds : String) (d : Char) : Option (String × Int) :=
  let n := strToNat (ds.push d)
  let ds' :=
    if 0 < n ∧ n ≤ numOpts then ds.push d
    else if d != '0' then d.toString
    else ds
  if ds' == "" then Option.none
  else some (ds', (strToNat ds' : Int) - 1)

/-- Python list indexing `hs[i]` on a list of length `len` succeeds iff
`-len <= i < len` (negative indices wrap around). -/
def pyIndexable (len : Nat) (i : Int) : Bool :=
  decide (-(len : Int) ≤ i ∧ i < (len : Int))

/-- Result of one iteration of the interactive `options` loop. -/
inductive OptStepRes where
  | cont (st : OptState)
  | ret (i : Int)
  | crash
deriving DecidableEq, Repr

/-- The display-update tail of one `options` iteration (lines 238-244): when
the selection changed, `hs[prev]` and `hs[cur]` are updated; an index outside
`[-len, len-1]` raises `IndexError` (and `hs[None]` would raise `TypeError`). -/
def optRender (numOpts : Nat) (prev cur : Option Int) (ds : String) : OptStepRes :=
  if prev = cur then .cont ⟨cur, ds⟩
  else
    let prevOk :=
      match prev with
      | some p => pyIndexable numOpts p
      | Option.none => true
    let curOk :=
      match cur with
      | some c => pyIndexable numOpts c
      | Option.none => false
    if prevOk && curOk then .cont ⟨cur, ds⟩ else .crash

/-- One iteration of the interactive `options` loop (lines 206-244). -/
def optStep (numOpts : Nat) (st : OptState) (k : OptKey) : OptStepRes :=
  match k with
  | .up =>
    let c : Int :=
      match st.cur with
      | Option.none => 0
      | some c => max 0 (c - 1)
    optRender numOpts st.cur (some c) st.ds
  | .down =>
    let c : Int :=
      match st.cur with
      | Option.none => 0
      | some c => min ((numOpts : Int) - 1) (c + 1)
    optRender numOpts st.cur (some c) st.ds
  | .ctrlUp => optRender numOpts st.cur (some 0) st.ds
  | .ctrlDown => optRender numOpts st.cur (some ((numOpts : Int) - 1)) st.ds
  | .enter | .right =>
    match st.cur with
    | some c => .ret c
    | Option.none => optRender numOpts st.cur Option.none st.ds
  | .digit d =>
    match digitStep numOpts st.ds d with
    | Option.none => .crash
    | some (ds', c) => optRender numOpts st.cur (some c) ds'
  | .other => optRender numOpts st.cur st.cur st.ds

/-- Drives the interactive `options` loop over a finite key stream; each key
read counts as one interaction. -/
def optionsKeyLoop (numOpts : Nat) (st : OptState) : List OptKey → Outcome Int × Nat
  | [] => (.starve, 0)
  | k :: ks =>
    match optStep numOpts st k with
    | .ret i => (Outcome.ret i, 1)
    | .crash => (.err, 1)
    | .cont st' =>
      let r := optionsKeyLoop numOpts st' ks
      (r.1, 1 + r.2)

/-- Value of a non-empty all-digit character list; `none` otherwise. -/
def digitsVal : List Char → Option Nat
  | [] => Option.none
  | l =>
    if l.all (fun c => 48 ≤ c.toNat && c.toNat ≤ 57)
    then some (l.foldl (fun a c => a * 10 + (c.toNat - 48)) 0)
    else Option.none

/-- Python `int()` applied to a raw input line: surrounding whitespace and an
optional sign are accepted, anything else fails (`ValueError`). -/
def pyInt (s : String) : Option Int :=
  match (strip s).data with
  | '-' :: rest => (digitsVal rest).map (fun n => -(n : Int))
  | '+' :: rest => (digitsVal rest).map (fun n => (n : Int))
  | l => (digitsVal l).map (fun n => (n : Int))

/-- One round of the non-interactive `options` loop (lines 247-259):
`x = int(raw_input(s) or default)`, accepted iff `1 <= x <= len(opts)`.
`none` models falling through to the next round (`continue`), both for a
parse failure and for an out-of-range number. -/
def optionsNIStep (numOpts : Nat) (default : Option Int) (input : String) : Option Int :=
  let x? : Option Int :=
    if input == "" then default
    else pyInt input
  match x? with
  | Option.none => Option.none
  | some x => if 1 ≤ x ∧ x ≤ (numOpts : Int) then some x else Option.none

/-- The non-interactive `options` loop over a finite input stream; each round
prints the prompt and the numbered list and reads one line
(`numOpts + 2` interactions). -/
def optionsNILoop (numOpts : Nat) (default : Option Int) : List String → Outcome Int × Nat
  | [] => (.starve, 0)
  | i :: ins =>
    match optionsNIStep numOpts default i with
    | some x => (Outcome.ret x, numOpts + 2)
    | Option.none =>
      let r := optionsNILoop numOpts default ins
      (r.1, numOpts + 2 + r.2)

/-- The `default` argument of `options` as the initial selection; a Python
bool used as an int has value 0 or 1. -/
def pyToOptInt : PyVal → Option Int
  | .int n => some n
  | .bool b => some (if b then 1 else 0)
  | _ => Option.none

/-- Models `options(prompt, opts, default)` (lines 175-259).  The interactive
branch first prints the prompt and renders each option line (three
`term.output` calls per option). -/
def optionsModel (termMode : Bool) (opts : List String) (default : PyVal)
    (keys : List OptKey) (inputs : List String) : Outcome Int × Nat :=
  if isIntOrNone default = false then (.err, 0)
  else if termMode then
    let r := optionsKeyLoop opts.length ⟨pyToOptInt default, ""⟩ keys
    (r.1, 1 + 3 * opts.length + r.2)
  else optionsNILoop opts.length (pyToOptInt default) inputs

/-! ### pause (ui.py lines 261-278) -/

/-- Models `pause(n)` (lines 261-278): with `n = None` one log line and one
blocking read; with an integer `n` a `waitfor` spinner, one status update per
second and a final success mark; any other type raises `ValueError` before
any terminal interaction. -/
def pauseModel (_termMode : Bool) (n : PyVal) : Outcome Unit × Nat :=
  match n with
  | .none => (Outcome.ret (), 2)
  | .int k => (Outcome.ret (), 2 + k.toNat)
  | .bool b => (Outcome.ret (), 2 + (if b then 1 else 0))
  | .str _ => (.err, 0)

/-! ### more (ui.py lines 280-304) -/

/-- Python `str.split('\n')` on the character-list model: split on every
newline, keeping empty groups. -/
def splitOnNewline : List Char → List (List Char)
  | [] => [[]]
  | c :: cs =>
    match splitOnNewline cs with
    | [] => [[]]
    | grp :: rest => if c = '\n' then [] :: grp :: rest else (c :: grp) :: rest

/-- Text splitting used by both pagers: `text.split('\n')`. -/
def splitLines (text : String) : List String :=
  (splitOnNewline text.data).map (fun l => ⟨l⟩)

/-- The page start indices of the interactive `more` loop (line 297):
`range(0, total, step)` for `step >= 1` is exactly the multiples of `step`
below `total`. -/
def morePageStarts (total step : Nat) : List Nat :=
  (List.range total).filter (fun i => i % step == 0)

/-- Number of pages printed by interactive `more` over `total` lines. -/
def morePages (total step : Nat) : Nat := (morePageStarts total step).length

/-- Number of blocking keypresses requested by interactive `more` (line 300):
one for each page start `i` with `i + step < total`. -/
def moreKeys (total step : Nat) : Nat :=
  ((morePageStarts total step).filter (fun i => decide (i + step < total))).length

/-! ### less (ui.py lines 307-377) -/

/-- Key tokens recognised by the `less` loop. -/
inductive LKey where
  | down | enter | space | right | up | backspace | left | quit | escape | other
deriving DecidableEq, Repr

/-- The `cursor_max` assignment of `less` (line 357):
`cursor_max = len(lines) - step - 1`, computed in Int because it is negative
whenever the text is shorter than one page. -/
def cursorMax (total step : Nat) : Int := (total : Int) - (step : Int) - 1

/-- One key event of the `less` loop acting on the cursor (lines 365-371); the
quit keys leave the loop without moving the cursor, anything unrecognised is
ignored. -/
def lessScroll (cmax : Int) (cursor : Nat) (k : LKey) : Nat :=
  match k with
  | .down | .enter | .space | .right => if (cursor : Int) < cmax then cursor + 1 else cursor
  | .up | .backspace | .left => if 0 < cursor then cursor - 1 else cursor
  | _ => cursor

/-- The cursor reached from 0 after a sequence of key events. -/
def lessRun (cmax : Int) (ks : List LKey) : Nat := ks.foldl (lessScroll cmax) 0

/-- The footer states of `less`. -/
inductive Footer where
  | fEnd
  | fMore
  | fName (fn : String)
  | fColon
deriving DecidableEq, Repr

/-- Models `less.update_footer` (lines 343-352). -/
def update_footer (cursor : Nat) (cmax : Int) (filename : Option String) : Footer :=
  if (cursor : Int) ≥ cmax then .fEnd
  else if cursor = 0 then .fMore
  else
    match filename with
    | some fn => .fName fn
    | Option.none => .fColon

/-- Python list slice `l[a:b]` with a non-negative start and an arbitrary
signed stop: a negative stop counts from the end of the list. -/
def pySlice (l : List String) (a : Nat) (b : Int) : List String :=
  let b' : Int := if b < 0 then b + (l.length : Int) else b
  (l.take b'.toNat).drop a

/-- Models `less.get_end_index` (lines 337-338):
`cursor + step if cursor + step < max else -1`. -/
def get_end_index (cursor step mx : Nat) : Int :=
  if cursor + step < mx then ((cursor + step : Nat) : Int) else -1

/-- The lines rendered by one frame of `less` (lines 340-341 and 360-362):
`lines[cursor:end]` with `end = get_end_index(cursor, step, len(lines))`. -/
def lessFrame (lines : List String) (step cursor : Nat) : List String :=
  pySlice lines cursor (get_end_index cursor step lines.length)

/-! ### highlight (ui.py lines 379-417) -/

/-- External pygments formatting (an external collaborator of this module);
its output content is opaque to the control flow modelled here. -/
def hlFormat (src : String) (_linenos _color256 : Bool) : String := src

/-- Models `highlight(filepath, linenos, mode)` (lines 393-417) over the
outcome of `guess_lexer`: `lexerResult = none` models
`pygments.util.ClassNotFound`.  Returns the outcome and the printed chunks;
delegation to a pager is recorded as a tagged chunk.  `err` models the
`UnboundLocalError` at `hl(src, lexer, formatter)` when the except branch ran
and `lexer` was never assigned. -/
def highlightModel (src : String) (lexerResult : Option String) (linenos : Bool)
    (term256 : Bool) (mode : Option String) : Outcome Unit × List String :=
  if src == "" then (Outcome.ret (), [])
  else
    match lexerResult with
    | Option.none =>
      (.err, ["No lexer found... Print without formatting.", src])
    | some _ =>
      let highlighted := hlFormat src linenos term256
      match mode with
      | Option.none => (Outcome.ret (), [highlighted])
      | some m =>
        if m == "more" then (Outcome.ret (), ["more:" ++ highlighted])
        else if m == "less" then (Outcome.ret (), ["less:" ++ highlighted])
        else (Outcome.ret (), [highlighted])

/-! ### Claim C1 -/

/-- C1 counterexample: for the one-line text "hello" and terminal height 6
(step = 5), less() sets cursor_max to -5, not to max(0, total - step - 1) = 0,
and the claimed invariant 0 ≤ cursor ≤ cursor_max already fails at the
initial cursor 0. -/
theorem less_cursor_max_counterexample :
    cursorMax (splitLines "hello").length (6 - 1) = -5
    ∧ max 0 (((splitLines "hello").length : Int) - (6 - 1) - 1) = 0
    ∧ cursorMax (splitLines "hello").length (6 - 1)
        ≠ max 0 (((splitLines "hello").length : Int) - (6 - 1) - 1)
    ∧ ¬ ((0 : Int) ≤ cursorMax (splitLines "hello").length (6 - 1)) := by
  decide

/-- One scroll key keeps the cursor within the clamped bound
max(0, cursor_max). -/
lemma lessScroll_le_bound (cmax : Int) (c : Nat) (k : LKey)
    (hc : c ≤ (max 0 cmax).toNat) : lessScroll cmax c k ≤ (max 0 cmax).toNat := by
  have hmax : (((max 0 cmax).toNat : Int)) = max 0 cmax :=
    Int.toNat_of_nonneg (le_max_left _ _)
  have h2 : cmax ≤ max 0 cmax := le_max_right _ _
  cases k <;> simp only [lessScroll] <;> (try split_ifs with h) <;> omega

/-- Any sequence of scroll keys keeps the cursor within the clamped bound. -/
lemma lessFold_le_bound (cmax : Int) (ks : List LKey) (c : Nat)
    (hc : c ≤ (max 0 cmax).toNat) :
    ks.foldl (lessScroll cmax) c ≤ (max 0 cmax).toNat := by
  induction ks generalizing c with
  | nil => simpa using hc
  | cons k ks ih =>
    rw [List.foldl_cons]
    exact ih _ (lessScroll_le_bound cmax c k hc)

/-- C1 (amended): interactive less() sets step = height - 1 and
cursor_max = total - step - 1 with no clamping (negative whenever the text is
shorter than one page); starting from cursor 0, after every sequence of key
events the cursor satisfies 0 ≤ cursor ≤ max(0, cursor_max), and scrolling
past either bound is a no-op. -/
theorem less_viewport_invariant (total height : Nat) (ks : List LKey) :
    cursorMax total (height - 1) = (total : Int) - ((height - 1 : Nat) : Int) - 1
    ∧ lessRun (cursorMax total (height - 1)) ks
        ≤ (max 0 (cursorMax total (height - 1))).toNat
    ∧ lessScroll (cursorMax total (height - 1))
        ((max 0 (cursorMax total (height - 1))).toNat) LKey.down
        = (max 0 (cursorMax total (height - 1))).toNat
    ∧ lessScroll (cursorMax total (height - 1)) 0 LKey.up = 0 := by
  refine ⟨rfl, lessFold_le_bound _ ks 0 (Nat.zero_le _), ?_, ?_⟩
  · have hmax : (((max 0 (cursorMax total (height - 1))).toNat : Int))
        = max 0 (cursorMax total (height - 1)) :=
      Int.toNat_of_nonneg (le_max_left _ _)
    have h2 : cursorMax total (height - 1) ≤ max 0 (cursorMax total (height - 1)) :=
      le_max_right _ _
    simp only [lessScroll]
    split_ifs with h
    · omega
    · rfl
  · simp [lessScroll]

/-! ### Claim C5 -/

/-- The footer shows (END) exactly when the cursor is at or past the raw
cursor_max value. -/
lemma update_footer_end_iff (cursor : Nat) (cmax : Int) (fn : Option String) :
    (update_footer cursor cmax fn = Footer.fEnd) ↔ ((cursor : Int) ≥ cmax) := by
  unfold update_footer
  split_ifs with h1 h2
  · simp [h1]
  · simp [h1]
  · cases fn <;> simp [h1]

/-- Over the reachable cursor range, sitting at or past the raw cursor_max is
the same as sitting exactly at the clamped maximum. -/
lemma end_iff_at_bound (cursor : Nat) (cmax : Int)
    (h : cursor ≤ (max 0 cmax).toNat) :
    ((cursor : Int) ≥ cmax) ↔ cursor = (max 0 cmax).toNat := by
  rcases le_or_lt cmax 0 with hc | hc
  · rw [max_eq_left hc] at h ⊢
    simp only [Int.toNat_zero] at h ⊢
    omega
  · rw [max_eq_right hc.le] at h ⊢
    omega

/-- C5: over the reachable viewport states (0 ≤ cursor ≤ max(0, cursor_max)),
the footer shows (END) exactly when the cursor sits at the clamped maximum
max(0, cursor_max), shows (more) when cursor = 0 and cursor_max > 0, and
otherwise shows the filename line when a filename was supplied and the bare
colon when not. -/
theorem less_footer_semantics (total height cursor : Nat) (fn : Option String)
    (hreach : cursor ≤ (max 0 (cursorMax total (height - 1))).toNat) :
    (update_footer cursor (cursorMax total (height - 1)) fn = Footer.fEnd
      ↔ cursor = (max 0 (cursorMax total (height - 1))).toNat)
    ∧ (cursor = 0 → 0 < cursorMax total (height - 1) →
        update_footer cursor (cursorMax total (height - 1)) fn = Footer.fMore)
    ∧ (0 < cursor → (cursor : Int) < cursorMax total (height - 1) →
        update_footer cursor (cursorMax total (height - 1)) fn
          = (match fn with
             | some f => Footer.fName f
             | Option.none => Footer.fColon)) := by
  refine ⟨?_, ?_, ?_⟩
  · exact (update_footer_end_iff cursor _ fn).trans (end_iff_at_bound cursor _ hreach)
  · intro h0 hpos
    subst h0
    unfold update_footer
    rw [if_neg (by omega), if_pos rfl]
  · intro h1 h2
    unfold update_footer
    rw [if_neg (by omega), if_neg (by omega)]

/-- Witness for C5 at 12 lines, height 6 (step 5, cursor_max 6), cursor 3 and
a supplied filename: the footer shows the filename line. -/
theorem less_footer_semantics_witness :
    update_footer 3 (cursorMax 12 (6 - 1)) (some "file") = Footer.fName "file" :=
  (less_footer_semantics 12 6 3 (some "file") (by decide)).2.2 (by decide) (by decide)

/-! ### Claim C6 -/

/-- Counting multiples of step below total: the page count of more(). -/
lemma countP_multiples (step : Nat) (hstep : 1 ≤ step) (total : Nat) :
    (List.range total).countP (fun i => i % step == 0) = (total + step - 1) / step := by
  have h0 : 0 < step := hstep
  induction total with
  | zero =>
    simp [Nat.div_eq_of_lt (show step - 1 < step by omega)]
  | succ n ih =>
    rw [List.range_succ, List.countP_append, ih]
    have hcons : List.countP (fun i => i % step == 0) [n]
        = if n % step = 0 then 1 else 0 := by
      simp [List.countP_cons]
    rw [hcons]
    rcases Nat.eq_zero_or_pos n with rfl | hn
    · simp [Nat.div_eq_of_lt (show step - 1 < step by omega)]
      rw [Nat.div_self h0]
    · have e1 : n + step - 1 = (n - 1) + step := by omega
      have e2 : n + 1 + step - 1 = n + step := by omega
      rw [e1, e2, Nat.add_div_right _ h0, Nat.add_div_right _ h0]
      have e3 : n / step = (n - 1) / step + if step ∣ n then 1 else 0 := by
        conv_lhs => rw [show n = (n - 1) + 1 by omega]
        rw [Nat.succ_div]
        rw [show n - 1 + 1 = n by omega]
      rw [e3]
      have hiff : step ∣ n ↔ n % step = 0 := Nat.dvd_iff_mod_eq_zero
      by_cases hdv : n % step = 0
      · rw [if_pos hdv, if_pos (hiff.mpr hdv)]
      · rw [if_neg hdv, if_neg (fun hc => hdv (hiff.mp hc))]

/-- Counting over range n equals counting over range m when the predicate is
false from m on. -/
lemma countP_range_eq_of_false (p : Nat → Bool) (m n : Nat) (hmn : m ≤ n)
    (h : ∀ i, m ≤ i → p i = false) :
    (List.range n).countP p = (List.range m).countP p := by
  induction n with
  | zero =>
    have : m = 0 := Nat.le_zero.mp hmn
    subst this; rfl
  | succ k ih =>
    rcases eq_or_lt_of_le hmn with rfl | hlt
    · rfl
    · have hmk : m ≤ k := Nat.lt_succ_iff.mp hlt
      rw [List.range_succ, List.countP_append, ih hmk]
      simp [List.countP_cons, h k hmk]

/-- Counting is invariant under pointwise equal predicates. -/
lemma countP_congr_mem {α : Type} (p q : α → Bool) :
    ∀ l : List α, (∀ a ∈ l, p a = q a) → l.countP p = l.countP q := by
  intro l
  induction l with
  | nil => intro _; rfl
  | cons a as ih =>
    intro h
    rw [List.countP_cons, List.countP_cons, h a (List.mem_cons_self a as),
      ih (fun b hb => h b (List.mem_cons_of_mem a hb))]

/-- C6: interactive more() over a text of `total` lines with page height
`step` prints exactly ceil(total / step) pages and blocks on exactly
ceil(total / step) - 1 intervening keypresses. -/
theorem more_pages_and_keypresses (total step : Nat) (hstep : 1 ≤ step)
    (htotal : 1 ≤ total) :
    morePages total step = (total + step - 1) / step
    ∧ moreKeys total step = (total + step - 1) / step - 1 := by
  have h0 : 0 < step := hstep
  constructor
  · rw [morePages, morePageStarts, ← List.countP_eq_length_filter]
    exact countP_multiples step hstep total
  · rw [moreKeys, morePageStarts, List.filter_filter, ← List.countP_eq_length_filter]
    rcases le_or_lt total step with hts | hts
    · have hfalse : ∀ i, 0 ≤ i →
          (fun a => decide (a + step < total) && (a % step == 0)) i = false := by
        intro i _
        have hni : ¬ (i + step < total) := by omega
        simp [hni]
      rw [countP_range_eq_of_false
        (fun a => decide (a + step < total) && (a % step == 0)) 0 total
        (Nat.zero_le _) hfalse]
      have e : total + step - 1 = (total - 1) + step := by omega
      rw [e, Nat.add_div_right _ h0, Nat.div_eq_of_lt (show total - 1 < step by omega)]
      simp
    · have hfalse : ∀ i, total - step ≤ i →
          (fun a => decide (a + step < total) && (a % step == 0)) i = false := by
        intro i hi
        have hni : ¬ (i + step < total) := by omega
        simp [hni]
      rw [countP_range_eq_of_false
        (fun a => decide (a + step < total) && (a % step == 0)) (total - step) total
        (by omega) hfalse]
      have hcong : ∀ a ∈ List.range (total - step),
          (fun a => decide (a + step < total) && (a % step == 0)) a
            = (fun a => a % step == 0) a := by
        intro a ha
        have halt : a < total - step := List.mem_range.mp ha
        have hlt : a + step < total := by omega
        simp [hlt]
      rw [countP_congr_mem _ _ (List.range (total - step)) hcong,
        countP_multiples step hstep (total - step)]
      have e2 : total - step + step - 1 = total - 1 := by omega
      have e3 : total + step - 1 = (total - 1) + step := by omega
      rw [e2, e3, Nat.add_div_right _ h0]
      simp

/-- Witness for C6 at 5 lines and page height 2: 3 pages and 2 keypresses. -/
theorem more_pages_and_keypresses_witness :
    morePages 5 2 = (5 + 2 - 1) / 2 ∧ moreKeys 5 2 = (5 + 2 - 1) / 2 - 1 :=
  more_pages_and_keypresses 5 2 (by decide) (by decide)

/-! ### Claim C2 -/

/-- C2 (code bug): driving non-interactive options() with the single option
list ["only option"] and the input "1" returns the raw 1-based number 1,
which is not an index in [0, N-1] = {0}; the interactive branch would have
returned the 0-based selection instead. -/
theorem options_noninteractive_one_based :
    optionsModel false ["only option"] PyVal.none [] ["1"] = (Outcome.ret 1, 3)
    ∧ ¬ ((1 : Int) ≤ (1 : Int) - 1) := by
  decide

/-! ### Claim C3 -/

/-- C3 counterexample: with 5 options and buffer "3", pressing '9' resets the
buffer to "9" and sets the selection index to 8, which is outside
[0, len(opts) - 1] = [0, 4]; the display update hs[8] of the same iteration
then raises IndexError. -/
theorem options_digit_out_of_range :
    digitStep 5 "3" '9' = some ("9", 8)
    ∧ ¬ ((8 : Int) ≤ (5 : Int) - 1)
    ∧ optStep 5 ⟨some 2, "3"⟩ (OptKey.digit '9') = OptStepRes.crash := by
  decide

/-- A pushed string is never empty. -/
lemma push_ne_empty (s : String) (c : Char) : (s.push c == "") = false := by
  rcases s with ⟨data⟩
  apply beq_eq_false_iff_ne.mpr
  intro h
  have h2 : data ++ [c] = [] := congrArg String.data h
  simp at h2

/-- A one-character string is never empty. -/
lemma toString_ne_empty (c : Char) : (c.toString == "") = false := by
  apply beq_eq_false_iff_ne.mpr
  intro h
  have h2 : [c] = [] := congrArg String.data h
  simp at h2

/-- C3 (amended): pressing digit d with buffer ds appends iff the 1-based
number int(ds + d) lies in [1, len(opts)], and the selection n - 1 of an
accepted append lies in [0, len(opts) - 1]; otherwise the buffer resets to
the single digit d unless d = '0', in which case the buffer is unchanged but
the selection is still recomputed as int(ds) - 1 (raising ValueError on
int('') when the buffer is empty); after a reset the selection may lie
outside [0, len(opts) - 1], and in that case the iteration crashes with
IndexError at hs[cur] before any commit can happen. -/
theorem options_digit_buffer (numOpts : Nat) (ds : String) (d : Char) (st : OptState) :
    ((0 < strToNat (ds.push d) ∧ strToNat (ds.push d) ≤ numOpts) →
        digitStep numOpts ds d = some (ds.push d, (strToNat (ds.push d) : Int) - 1)
        ∧ 0 ≤ (strToNat (ds.push d) : Int) - 1
        ∧ (strToNat (ds.push d) : Int) - 1 ≤ (numOpts : Int) - 1)
    ∧ (¬ (0 < strToNat (ds.push d) ∧ strToNat (ds.push d) ≤ numOpts) → d ≠ '0' →
        digitStep numOpts ds d = some (d.toString, (strToNat d.toString : Int) - 1))
    ∧ (¬ (0 < strToNat (ds.push d) ∧ strToNat (ds.push d) ≤ numOpts) → d = '0' → ds ≠ "" →
        digitStep numOpts ds d = some (ds, (strToNat ds : Int) - 1))
    ∧ (¬ (0 < strToNat (ds.push d) ∧ strToNat (ds.push d) ≤ numOpts) → d = '0' → ds = "" →
        digitStep numOpts ds d = Option.none)
    ∧ (∀ ds' c, digitStep numOpts st.ds d = some (ds', c) →
        pyIndexable numOpts c = false → st.cur ≠ some c →
        optStep numOpts st (OptKey.digit d) = OptStepRes.crash) := by
  refine ⟨?_, ?_, ?_, ?_, ?_⟩
  · intro h
    obtain ⟨h1, h2⟩ := h
    refine ⟨?_, by omega, by omega⟩
    simp [digitStep, h1, h2, push_ne_empty]
  · intro h hd
    have hb : (d != '0') = true := by simpa using hd
    simp [digitStep, h, hb, toString_ne_empty]
  · intro h hd hds
    have hb : (d != '0') = false := by simp [hd]
    have hds' : (ds == "") = false := beq_eq_false_iff_ne.mpr hds
    simp [digitStep, h, hb, hds']
  · intro h hd hds
    subst hd; subst hds
    have h0 : strToNat ("".push '0') = 0 := rfl
    simp [digitStep, h0]
  · intro ds' c hdig hidx hne
    simp only [optStep, hdig]
    simp [optRender, hne, hidx]

/-- Witness for the amended C3 at 5 options, empty buffer and digit '3':
the append is accepted and the selection 2 lies in [0, 4]. -/
theorem options_digit_buffer_witness :
    digitStep 5 "" '3' = some ("".push '3', (strToNat ("".push '3') : Int) - 1)
    ∧ 0 ≤ (strToNat ("".push '3') : Int) - 1
    ∧ (strToNat ("".push '3') : Int) - 1 ≤ (5 : Int) - 1 :=
  (options_digit_buffer 5 "" '3' ⟨Option.none, ""⟩).1 (by decide)

/-! ### Claim C4 -/

/-- C4 (code bug): for the two-line text "a\nb" and step 5 (so that
cursor + step ≥ total), get_end_index returns -1 and the frame is
lines[0:-1] = ["a"]; the last line "b" is dropped instead of being rendered. -/
theorem less_frame_drops_last_line :
    get_end_index 0 5 (splitLines "a\nb").length = -1
    ∧ lessFrame (splitLines "a\nb") 5 0 = ["a"]
    ∧ lessFrame (splitLines "a\nb") 5 0 ≠ ["a", "b"] := by
  decide

/-! ### Claim C7 -/

/-- C7: for every `required` that is not bool-or-None (ask/askpass), every
yesno `default` that is not bool-or-None, every options `default` that is not
int-or-None, and every pause `n` that is neither None nor an integer, the
call fails with ValueError having performed zero terminal interactions: no
prompt is shown and nothing is retried.  Each parameter is constrained only
by its own function's isinstance check. -/
theorem invalid_argument_before_io (r dy dopt n : PyVal)
    (hr : isBoolOrNone r = false) (hdy : isBoolOrNone dy = false)
    (hdopt : isIntOrNone dopt = false) (hn : isIntOrNone n = false)
    (d : Option String) (ins : List String) (tm : Bool) (opts : List String)
    (oks : List OptKey) (yks : List YKey) :
    askModel d r ins = (Outcome.err, 0)
    ∧ askpassModel d r ins = (Outcome.err, 0)
    ∧ yesnoModel tm dy yks ins = (Outcome.err, 0)
    ∧ optionsModel tm opts dopt oks ins = (Outcome.err, 0)
    ∧ pauseModel tm n = (Outcome.err, 0) := by
  refine ⟨?_, ?_, ?_, ?_, ?_⟩
  · simp [askModel, hr]
  · simp [askpassModel, hr]
  · simp [yesnoModel, hdy]
  · simp [optionsModel, hdopt]
  · cases n with
    | str s => rfl
    | none => simp [isIntOrNone] at hn
    | bool b => simp [isIntOrNone] at hn
    | int k => simp [isIntOrNone] at hn

/-- Witness for C7: the string "zzz" is ill-typed everywhere, and the integer
1 is ill-typed as the yesno default (line 134 accepts only bool or None). -/
theorem invalid_argument_before_io_witness :
    askModel Option.none (PyVal.str "zzz") [] = (Outcome.err, 0)
    ∧ askpassModel Option.none (PyVal.str "zzz") [] = (Outcome.err, 0)
    ∧ yesnoModel true (PyVal.int 1) [] [] = (Outcome.err, 0)
    ∧ optionsModel true [] (PyVal.str "zzz") [] [] = (Outcome.err, 0)
    ∧ pauseModel true (PyVal.str "zzz") = (Outcome.err, 0) :=
  invalid_argument_before_io (PyVal.str "zzz") (PyVal.int 1) (PyVal.str "zzz")
    (PyVal.str "zzz") rfl rfl rfl rfl Option.none [] true [] [] []

/-! ### Claim C8 -/

/-- C8 (code bug): on a non-empty source for which no lexer is found,
highlight() prints the one-line notice and the raw bytes, but then crashes
with UnboundLocalError at hl(src, lexer, formatter) instead of returning
normally. -/
theorem highlight_missing_lexer_crash :
    highlightModel "junk" Option.none false false Option.none
      = (Outcome.err, ["No lexer found... Print without formatting.", "junk"])
    ∧ (highlightModel "junk" Option.none false false Option.none).1
        ≠ Outcome.ret () := by
  decide

/-! ### Claim C9 -/

/-- The retry loop returns immediately when the response is already
non-empty. -/
lemma askLoop_nonempty (resp : String) (l : List String) (h : resp ≠ "") :
    askLoop resp l = (Outcome.ret resp, 0) := by
  have hb : (resp == "") = false := beq_eq_false_iff_ne.mpr h
  cases l <;> simp [askLoop, hb]

/-- The retry loop starves on a run of inputs that all strip to empty,
consuming every one of them. -/
lemma askLoop_all_empty (l : List String) (h : ∀ a ∈ l, strip a = "") :
    askLoop "" l = (Outcome.starve, l.length) := by
  induction l with
  | nil => rfl
  | cons i ins ih =>
    have hi : strip i = "" := h i (List.mem_cons_self i ins)
    have hins := ih (fun a ha => h a (List.mem_cons_of_mem i ha))
    simp [askLoop, hi, hins]

/-- The retry loop consumes an all-empty run and returns the first non-empty
input, stripped. -/
lemma askLoop_first_nonempty (pre post : List String) (x : String)
    (hpre : ∀ a ∈ pre, strip a = "") (hx : strip x ≠ "") :
    askLoop "" (pre ++ x :: post) = (Outcome.ret (strip x), pre.length + 1) := by
  induction pre with
  | nil => simp [askLoop, askLoop_nonempty (strip x) post hx]
  | cons p ps ih =>
    have hp : strip p = "" := hpre p (List.mem_cons_self p ps)
    have hps := ih (fun a ha => hpre a (List.mem_cons_of_mem p ha))
    simp [askLoop, hp, hps]

/-- C9: with a non-empty default, empty input returns the default at the first
prompt; with required=True and no default, every empty input re-prompts (an
all-empty input stream never produces an answer), and the first non-empty
input is returned stripped. -/
theorem ask_default_and_required
    (d : String) (hd : d ≠ "") (req : PyVal) (hreq : isBoolOrNone req = true)
    (i : String) (hi : strip i = "") (ins : List String)
    (pre post : List String) (hpre : ∀ a ∈ pre, strip a = "")
    (x : String) (hx : strip x ≠ "") :
    askModel (some d) req (i :: ins) = (Outcome.ret d, 1)
    ∧ askModel Option.none (PyVal.bool true) pre = (Outcome.starve, pre.length)
    ∧ askModel Option.none (PyVal.bool true) (pre ++ x :: post)
        = (Outcome.ret (strip x), pre.length + 1) := by
  refine ⟨?_, ?_, ?_⟩
  · have ht : truthy (some d) = true := by simpa [truthy] using hd
    simp [askModel, hreq, hi, ht]
  · cases pre with
    | nil => simp [askModel, isBoolOrNone]
    | cons p ps =>
      have hp : strip p = "" := hpre p (List.mem_cons_self p ps)
      have hps := askLoop_all_empty ps (fun a ha => hpre a (List.mem_cons_of_mem p ha))
      simp [askModel, isBoolOrNone, truthy, hp, hps]
  · cases pre with
    | nil => simp [askModel, isBoolOrNone, truthy, askLoop_nonempty (strip x) post hx]
    | cons p ps =>
      have hp : strip p = "" := hpre p (List.mem_cons_self p ps)
      have hps := askLoop_first_nonempty ps post x
          (fun a ha => hpre a (List.mem_cons_of_mem p ha)) hx
      simp [askModel, isBoolOrNone, truthy, hp, hps]

/-- Witness for C9: default "d" is returned on a blank input; with
required=True, the inputs "", " " starve, and "", " ", " a ", "z" returns
"a" after three prompts. -/
theorem ask_default_and_required_witness :
    askModel (some "d") (PyVal.bool true) [" "] = (Outcome.ret "d", 1)
    ∧ askModel Option.none (PyVal.bool true) ["", " "] = (Outcome.starve, 2)
    ∧ askModel Option.none (PyVal.bool true) (["", " "] ++ " a " :: ["z"])
        = (Outcome.ret "a", 3) := by
  have h := ask_default_and_required "d" (by decide) (PyVal.bool true) rfl
      " " (by decide) [] ["", " "] ["z"]
      (by intro a ha; fin_cases ha <;> decide) " a " (by decide)
  have e : strip " a " = "a" := by decide
  simpa [e] using h

/-! ### Claim C10 -/

/-- C10: ask and askpass treat an empty-string default exactly as an absent
default, for every input stream and every `required`; in particular with
required=True an empty input does not return the empty default but enters
the re-prompt loop. -/
theorem ask_empty_default_like_none (req : PyVal) (inputs : List String) :
    askModel (some "") req inputs = askModel Option.none req inputs
    ∧ askpassModel (some "") req inputs = askpassModel Option.none req inputs
    ∧ askModel (some "") (PyVal.bool true) [""] = (Outcome.starve, 1) := by
  refine ⟨?_, ?_, by decide⟩
  · cases inputs with
    | nil => rfl
    | cons i ins => simp [askModel, truthy]
  · cases inputs with
    | nil => rfl
    | cons i ins => simp [askpassModel, truthy]

end PwnlibUi
